import Mathlib

/-!
The kafka-proxy client: a shallow embedding of the REST-proxy client library.

The Go package `proxy` (files `consumer.go`, `producer.go`) is embedded as pure
Lean functions.

* A Go function returning `(value, error)` becomes a function returning a
  `Ret` record: the value, the optional error, and the number of transport
  calls made so far.  A nil pointer is `none`; a nil or empty slice is `[]`.
* The transport (`HTTPClient.Do`) is a function of the number of earlier
  transport calls and of the request, so that successive calls may answer
  differently.
* The Go standard library (net/url, net/http, path, encoding/json) is not part
  of the repository; the functions used are fields of `Stdlib`.
* `fmt.Errorf` builds an `errorf` error from the formatted text; `%v` of an
  integer is its decimal form, `%s` of a byte slice is its content, `%v` of an
  error is its text.
* `WaitFor` runs on fuel (one unit per evaluation of the loop condition);
  the state of the channel `timedout` when the `select` statement runs for the
  i-th time is given by a function `Nat → Bool`.  `TimerAdmits` says which
  such functions a deadline of `timeout` milliseconds allows; it leaves open
  what a check made at the very instant of the deadline sees, because the
  channel is closed by the timer goroutine and not by the clock.
-/

namespace KafkaProxy

/-! ## Data model -/

/-- Go `error` values: those made outside this package (`lib`: net/url,
net/http, io, encoding/json, the transport) and those made by `fmt.Errorf`
inside it (`errorf`). -/
inductive GoError where
  | lib (text : String)
  | errorf (text : String)
deriving DecidableEq, Repr

/-- The text of an error (`err.Error()`), as `%v` prints it. -/
def GoError.Error : GoError → String
  | .lib text => text
  | .errorf text => text

/-- Go type `type Format string`. -/
abbrev Format := String

/-- Go constant `JSON = Format("json")`. -/
def JSON : Format := "json"
/-- Go constant `Binary = Format("binary")`. -/
def Binary : Format := "binary"
/-- Go constant `Avro = Format("avro")`. -/
def Avro : Format := "avro"

/-- Go constant `Smallest = "smallest"`. -/
def Smallest : String := "smallest"
/-- Go constant `Largest = "largest"`. -/
def Largest : String := "largest"

/-- Go expression `http.StatusOK`. -/
def StatusOK : Int := 200

/-- Go struct `Message` of consumer.go; raw JSON payloads are kept as text. -/
structure Message where
  Key : String
  Value : String
  Partition : Int
  Offset : Int
deriving DecidableEq, Repr

/-- Go struct `ConsumerRequest` of consumer.go. -/
structure ConsumerRequest where
  Format : Format
  Offset : String
  AutoCommit : String
  Name : String
deriving DecidableEq, Repr

/-- Go struct `ConsumerEndpoint` of consumer.go. -/
structure ConsumerEndpoint where
  InstanceID : String
  BaseURI : String
deriving DecidableEq, Repr

/-- Go struct `ProducerOffsets` of producer.go. -/
structure ProducerOffsets where
  Partition : Int
  Offset : Int
  ErrorCode : Int
  Error : String
deriving DecidableEq, Repr

/-- Go struct `ProducerResponse` of producer.go. -/
structure ProducerResponse where
  KeySchemaID : Int
  ValueSchemaID : Int
  Offsets : List ProducerOffsets
deriving DecidableEq, Repr

/-- Go struct `ProducerRecord` of producer.go. -/
structure ProducerRecord where
  Key : String
  Value : String
  Partition : Int
deriving DecidableEq, Repr

/-- Go struct `ProducerMessage` of producer.go. -/
structure ProducerMessage where
  KeySchema : String
  KeySchemaID : Int
  ValueSchema : String
  ValueSchemaID : Int
  Records : List ProducerRecord
deriving DecidableEq, Repr

/-- The fields of `url.URL` that the package touches, and two more. -/
structure URL where
  Scheme : String
  Host : String
  Path : String
  RawQuery : String
deriving DecidableEq, Repr

/-- An `http.Request`: method, target, headers in insertion order, body. -/
structure Request where
  Method : String
  URL : String
  Header : List (String × String)
  Body : Option String
deriving DecidableEq, Repr

/-- Go expression `request.Header.Add(key, value)`. -/
def Request.headerAdd (request : Request) (key value : String) : Request :=
  { request with Header := request.Header ++ [(key, value)] }

/-- An `http.Response`: the status code and what `ioutil.ReadAll(res.Body)`
yields (the bytes read and the read error, if any). -/
structure Response where
  StatusCode : Int
  Body : String × Option GoError
deriving DecidableEq, Repr

/-- Go interface `HTTPClient`: `Do calls request` is the answer to `request` when `calls`
requests went through this client before. -/
structure HTTPClient where
  Do : Nat → Request → Except GoError Response

/-- The standard-library functions the package calls.  `NewRequest` follows
the net/http contract (a request or an error, never both); `Unmarshal*` take
the bytes and the current value behind the pointer and give the value left
behind the pointer and the error. -/
structure Stdlib where
  urlParse : String → Except GoError URL
  urlString : URL → String
  pathJoin : List String → String
  QueryEscape : String → String
  NewRequest : String → String → Option String → Except GoError Request
  MarshalConsumerRequest : ConsumerRequest → Except GoError String
  MarshalProducerMessage : ProducerMessage → Except GoError String
  UnmarshalMessages : String → List Message → List Message × Option GoError
  UnmarshalConsumerEndpoint : String → ConsumerEndpoint → ConsumerEndpoint × Option GoError
  UnmarshalProducerResponse : String → ProducerResponse → ProducerResponse × Option GoError

/-- A Go result pair `(val, err)` together with the number of transport calls
made once the function has returned. -/
structure Ret (α : Type) where
  val : α
  err : Option GoError
  calls : Nat
deriving DecidableEq, Repr

/-! ## Request builders (consumer.go, producer.go) -/

/-- Go function `contentTypeForFormat` of consumer.go. -/
def contentTypeForFormat (format : Format) : String × Option GoError :=
  if format = JSON then ("application/vnd.kafka.json.v1+json", none)
  else if format = Binary then ("application/vnd.kafka.binary.v1+json", none)
  else if format = Avro then ("application/vnd.kafka.avro.v1+json", none)
  else ("", some (.errorf ("Unknown format: " ++ format)))

/-- Go function `buildURL` of consumer.go. -/
def buildURL (std : Stdlib) (baseURL p query : String) : Except GoError String :=
  match std.urlParse baseURL with
  | .error err => .error err
  | .ok u =>
    let u1 : URL := { u with Path := std.pathJoin [u.Path, p] }
    let u2 : URL := if query ≠ "" then { u1 with RawQuery := query } else u1
    .ok (std.urlString u2)

/-- Go function `get` of consumer.go. -/
def get (std : Stdlib) (baseURL path query accepts : String) : Except GoError Request :=
  match buildURL std baseURL path query with
  | .error err => .error err
  | .ok u =>
    match std.NewRequest "GET" u none with
    | .error err => .error err
    | .ok request => .ok (request.headerAdd "Accept" accepts)

/-- Go function `post` of consumer.go; `marshal` is `json.Marshal` at the type of `body`. -/
def post {α : Type} (std : Stdlib) (marshal : α → Except GoError String)
    (baseURL path : String) (body : Option α) (contentType : String) : Except GoError Request :=
  let marshalled : Except GoError (Option String) :=
    match body with
    | none => .ok none
    | some b =>
      match marshal b with
      | .error err => .error err
      | .ok data => .ok (some data)
  match marshalled with
  | .error err => .error err
  | .ok reader =>
    match buildURL std baseURL path "" with
    | .error err => .error err
    | .ok u =>
      match std.NewRequest "POST" u reader with
      | .error err => .error err
      | .ok request => .ok (request.headerAdd "Content-Type" contentType)

/-- Go function `ConsumeRequest` of consumer.go. -/
def ConsumeRequest (std : Stdlib) (baseURL topic : String) (partition offset count : Int)
    (format : Format) : Except GoError Request :=
  match contentTypeForFormat format with
  | (_, some err) => .error err
  | (contentType, none) =>
    let countQuery := std.QueryEscape (toString count)
    let offsetQuery := std.QueryEscape (toString offset)
    get std baseURL
      (std.pathJoin ["topics", topic, "partitions", toString partition, "messages"])
      ("offset=" ++ offsetQuery ++ "&count=" ++ countQuery)
      contentType

/-- Go function `NewConsumerRequest` of consumer.go. -/
def NewConsumerRequest (format : Format) (offset : String) : ConsumerRequest :=
  { Format := format, Offset := offset, AutoCommit := "true", Name := "" }

/-- Go function `CreateConsumerRequest` of consumer.go. -/
def CreateConsumerRequest (std : Stdlib) (baseURL group : String) (request : ConsumerRequest) :
    Except GoError Request :=
  post std std.MarshalConsumerRequest baseURL (std.pathJoin ["consumers", group]) (some request)
    "application/vnd.kafka.v1+json"

/-- Go function `ConsumeEndpointRequest` of consumer.go. -/
def ConsumeEndpointRequest (std : Stdlib) (consumer : ConsumerEndpoint) (topic : String)
    (format : Format) : Except GoError Request :=
  match contentTypeForFormat format with
  | (_, some err) => .error err
  | (contentType, none) => get std consumer.BaseURI (std.pathJoin ["topics", topic]) "" contentType

/-- Go function `ProduceRequest` of producer.go. -/
def ProduceRequest (std : Stdlib) (baseURL topic : String) (format : Format)
    (message : ProducerMessage) : Except GoError Request :=
  match contentTypeForFormat format with
  | (_, some err) => .error err
  | (contentType, none) =>
    post std std.MarshalProducerMessage baseURL (std.pathJoin ["topics", topic]) (some message)
      contentType

/-! ## Executing a request -/

/-- What `doJSON` leaves behind: its three results, the value behind the
`response` pointer, and the transport call count. -/
structure DoJSONResult (α : Type) where
  status : Int
  body : String
  err : Option GoError
  response : Option α
  calls : Nat

/-- Go function `doJSON` of consumer.go.  When `Do` fails, `status` and `body` keep their
zero values. -/
def doJSON {α : Type} (restful : HTTPClient) (request : Request) (response : Option α)
    (unmarshal : String → α → α × Option GoError) (calls : Nat) : DoJSONResult α :=
  match restful.Do calls request with
  | .error err => ⟨0, "", some err, response, calls + 1⟩
  | .ok res =>
    match res.Body with
    | (body, some err) => ⟨res.StatusCode, body, some err, response, calls + 1⟩
    | (body, none) =>
      match response with
      | none => ⟨res.StatusCode, body, none, none, calls + 1⟩
      | some r =>
        let decoded := unmarshal body r
        ⟨res.StatusCode, body, decoded.2, some decoded.1, calls + 1⟩

/-- Go expression `fmt.Errorf("%v:%s", status, body)`. -/
def statusError (status : Int) (body : String) : GoError :=
  .errorf (toString status ++ ":" ++ body)

/-- Go expression `fmt.Errorf("%v:%s:%v", status, body, err)`. -/
def wrappedError (status : Int) (body : String) (err : GoError) : GoError :=
  .errorf (toString status ++ ":" ++ body ++ ":" ++ err.Error)

/-! ## Operations -/

/-- Go function `Consume` of consumer.go. -/
def Consume (std : Stdlib) (client : HTTPClient) (baseURL topic : String)
    (partition offset count : Int) (format : Format) (calls : Nat) : Ret (List Message) :=
  if count < 1 then
    ⟨[], some (.errorf ("Count must be 1 or greater: " ++ toString count)), calls⟩
  else
    match ConsumeRequest std baseURL topic partition offset count format with
    | .error err => ⟨[], some err, calls⟩
    | .ok req =>
      let r := doJSON client req (some ([] : List Message)) std.UnmarshalMessages calls
      if r.status ≠ StatusOK then
        ⟨[], some (statusError r.status r.body), r.calls⟩
      else
        match r.err with
        | some err => ⟨[], some (wrappedError r.status r.body err), r.calls⟩
        | none => ⟨r.response.getD [], none, r.calls⟩

/-- Go function `CreateConsumer` of consumer.go (named results `resp`, `err`). -/
def CreateConsumer (std : Stdlib) (client : HTTPClient) (baseURL group : String)
    (request : ConsumerRequest) (calls : Nat) : Ret (Option ConsumerEndpoint) :=
  match CreateConsumerRequest std baseURL group request with
  | .error err => ⟨none, some err, calls⟩
  | .ok req =>
    let r := doJSON client req (some (⟨"", ""⟩ : ConsumerEndpoint))
      std.UnmarshalConsumerEndpoint calls
    match r.err with
    | some err => ⟨r.response, some err, r.calls⟩
    | none =>
      if r.status ≠ StatusOK then
        ⟨none, some (statusError r.status r.body), r.calls⟩
      else
        ⟨r.response, none, r.calls⟩

/-- Go function `ConsumeEndpoint` of consumer.go. -/
def ConsumeEndpoint (std : Stdlib) (client : HTTPClient) (endpoint : ConsumerEndpoint)
    (topic : String) (format : Format) (calls : Nat) : Ret (List Message) :=
  match ConsumeEndpointRequest std endpoint topic format with
  | .error err => ⟨[], some err, calls⟩
  | .ok req =>
    let r := doJSON client req (some ([] : List Message)) std.UnmarshalMessages calls
    match r.err with
    | some err => ⟨[], some (wrappedError r.status r.body err), r.calls⟩
    | none =>
      if r.status ≠ StatusOK then
        ⟨[], some (statusError r.status r.body), r.calls⟩
      else
        ⟨r.response.getD [], none, r.calls⟩

/-- Go function `Produce` of producer.go. -/
def Produce (std : Stdlib) (client : HTTPClient) (baseURL topic : String)
    (message : ProducerMessage) (format : Format) (calls : Nat) : Ret (Option ProducerResponse) :=
  if format = Avro ∧ message.ValueSchema = "" ∧ message.ValueSchemaID = 0 then
    ⟨none, some (.errorf "Must provide a value schema or value schema id"), calls⟩
  else
    match ProduceRequest std baseURL topic format message with
    | .error err => ⟨none, some err, calls⟩
    | .ok req =>
      let r := doJSON client req (some (⟨0, 0, []⟩ : ProducerResponse))
        std.UnmarshalProducerResponse calls
      match r.err with
      | some err => ⟨none, some err, r.calls⟩
      | none =>
        if r.status ≠ StatusOK then
          ⟨none, some (statusError r.status r.body), r.calls⟩
        else
          ⟨r.response, none, r.calls⟩

/-! ## Bounded polling -/

/-- What a run of `WaitFor` gives: the Go result pair, the transport call
count, and `fetches`, the number of times `ConsumeEndpoint` was invoked. -/
structure WaitResult where
  val : List Message
  err : Option GoError
  calls : Nat
  fetches : Nat
deriving DecidableEq, Repr

/-- Go expression `fmt.Errorf("Timed out: %v", len(messages))`. -/
def timeoutError (n : Nat) : GoError :=
  .errorf ("Timed out: " ++ toString n)

/-- The `for len(messages) < count` loop of `WaitFor`.  `timedout iter` tells
whether the channel `timedout` is closed when the `select` statement runs in
iteration `iter` (counted from 0); the `default` branch waits for the poll
interval and the fetch follows.  `none` means the fuel ran out. -/
def WaitFor.loop (std : Stdlib) (client : HTTPClient) (endpoint : ConsumerEndpoint)
    (topic : String) (format : Format) (count : Int) (timedout : Nat → Bool) :
    Nat → Nat → List Message → Nat → Nat → Option WaitResult
  | 0, _, _, _, _ => none
  | fuel + 1, iter, messages, calls, fetches =>
    if (messages.length : Int) < count then
      if timedout iter then
        some ⟨[], some (timeoutError messages.length), calls, fetches⟩
      else
        let r := ConsumeEndpoint std client endpoint topic format calls
        match r.err with
        | some err => some ⟨[], some err, r.calls, fetches + 1⟩
        | none => WaitFor.loop std client endpoint topic format count timedout fuel (iter + 1)
            (messages ++ r.val) r.calls (fetches + 1)
    else
      some ⟨messages, none, calls, fetches⟩

/-- Go function `WaitFor` of consumer.go: the first fetch, then the loop.  The
timer goroutine is started after the first fetch and is represented by
`timedout`. -/
def WaitFor (std : Stdlib) (client : HTTPClient) (endpoint : ConsumerEndpoint)
    (topic : String) (format : Format) (count : Int) (timedout : Nat → Bool)
    (fuel : Nat) (calls : Nat) : Option WaitResult :=
  let r := ConsumeEndpoint std client endpoint topic format calls
  match r.err with
  | some err => some ⟨[], some err, r.calls, 1⟩
  | none =>
    WaitFor.loop std client endpoint topic format count timedout fuel 0 r.val r.calls 1

/-- The poll interval, `500 * time.Millisecond`, in milliseconds. -/
def pollInterval : Nat := 500

/-- Milliseconds since the timer was started when the `select` statement runs
in iteration `i`, when every earlier iteration took exactly one poll interval
plus the duration `latency j` of its fetch (the fetch of iteration `j`). -/
def elapsedAt (latency : Nat → Nat) : Nat → Nat
  | 0 => 0
  | i + 1 => elapsedAt latency i + pollInterval + latency i

/-- The states of the channel `timedout` that a deadline of `timeout`
milliseconds allows, `timedout i` being what the `select` statement of
iteration `i` sees: the channel is open at a check made before the deadline
and closed at a check made later than the deadline.  A check made at the very
instant of the deadline may see either: the timer goroutine is started after
the first fetch, arms its timer on its own and needs a scheduling step to close
the channel. -/
def TimerAdmits (timeout : Nat) (latency : Nat → Nat) (timedout : Nat → Bool) : Prop :=
  (∀ i, elapsedAt latency i < timeout → timedout i = false) ∧
  (∀ i, timeout < elapsedAt latency i → timedout i = true)

/-- The channel `timedout` seen open at the checks of iterations `0` to
`m - 1` and closed from the check of iteration `m` on. -/
def closedFrom (m : Nat) (i : Nat) : Bool := decide (m ≤ i)

/-- The first `n` batches of `b`, concatenated in arrival order. -/
def concatBatches (b : Nat → List Message) : Nat → List Message
  | 0 => []
  | n + 1 => concatBatches b n ++ b n

/-! ## Sample instantiation

A small standard library and scripted clients, used to evaluate the operations
on concrete inputs. -/

/-- The error `json.Unmarshal` gives on empty input. -/
def unexpectedEnd : GoError := .lib "unexpected end of JSON input"

/-- Sample message decoder: empty input is a decode error (as for
`json.Unmarshal`); otherwise every character other than the two square
brackets stands for one message. -/
def sampleUnmarshalMessages (body : String) (r : List Message) : List Message × Option GoError :=
  if body = "" then (r, some unexpectedEnd)
  else ((body.toList.filter (fun c => c ≠ '[' ∧ c ≠ ']')).map
    (fun c => (⟨"", c.toString, 0, 0⟩ : Message)), none)

/-- Sample standard library.  The decoders reject the empty input, as
`json.Unmarshal` does, and accept every other body. -/
def sampleStd : Stdlib where
  urlParse := fun s =>
    if s = "%" then .error (.lib "invalid URL escape") else .ok ⟨"", "", s, ""⟩
  urlString := fun u => u.Path ++ (if u.RawQuery = "" then "" else "?" ++ u.RawQuery)
  pathJoin := fun parts => "/".intercalate parts
  QueryEscape := fun s => s
  NewRequest := fun method u body => .ok ⟨method, u, [], body⟩
  MarshalConsumerRequest := fun r => .ok (r.Format ++ "," ++ r.Offset)
  MarshalProducerMessage := fun m => .ok (m.ValueSchema ++ "," ++ toString m.ValueSchemaID)
  UnmarshalMessages := sampleUnmarshalMessages
  UnmarshalConsumerEndpoint := fun body r =>
    if body = "" then (r, some unexpectedEnd) else (⟨"id", body⟩, none)
  UnmarshalProducerResponse := fun body r =>
    if body = "" then (r, some unexpectedEnd) else (⟨0, 1, []⟩, none)

/-- A client that answers its i-th call with the i-th entry of `script`, and
fails once the script is used up. -/
def scriptedClient (script : List (Except GoError Response)) : HTTPClient :=
  ⟨fun calls _ => script.getD calls (.error (.lib "EOF"))⟩

/-- A client whose every call is answered by `answer`. -/
def constantClient (answer : Except GoError Response) : HTTPClient :=
  ⟨fun _ _ => answer⟩

/-- A response with status 200 and the given, fully readable, body. -/
def okResponse (body : String) : Except GoError Response :=
  .ok ⟨200, (body, none)⟩

/-- Sample consumer endpoint. -/
def sampleEndpoint : ConsumerEndpoint := ⟨"id", "http://proxy/consumers/g/instances/id"⟩

/-- The message the sample decoder makes of the character-long text `v`. -/
def sampleMessage (v : String) : Message := ⟨"", v, 0, 0⟩

/-- Batches of sizes 2, 0 and 3, then empty batches. -/
def sampleBatches (i : Nat) : List Message :=
  [[sampleMessage "a", sampleMessage "b"], [],
    [sampleMessage "c", sampleMessage "d", sampleMessage "e"]].getD i []

/-- A client serving `sampleBatches`: bodies with 2, 0 and 3 messages. -/
def batchClient : HTTPClient :=
  scriptedClient [okResponse "[ab]", okResponse "[]", okResponse "[cde]"]

/-- A client whose first answer carries one message and whose second answer
is a status 500 with the body of an empty array. -/
def failingSecondClient : HTTPClient :=
  scriptedClient [okResponse "[a]", .ok ⟨500, ("[]", none)⟩, okResponse "[cde]"]

/-- A client that always answers with an empty message array. -/
def emptyClient : HTTPClient := constantClient (okResponse "[]")

/-- A client whose every call fails in the transport. -/
def refusingClient : HTTPClient := constantClient (.error (.lib "connection refused"))

/-- A client whose first answer is empty and whose second carries one
message. -/
def lateClient : HTTPClient := scriptedClient [okResponse "[]", okResponse "[a]"]

/-- Batches of sizes 2, 1 and 0, then empty batches. -/
def shortBatches (i : Nat) : List Message :=
  [[sampleMessage "a", sampleMessage "b"], [sampleMessage "c"], []].getD i []

/-- A client serving `shortBatches`: bodies with 2, 1 and 0 messages. -/
def shortClient : HTTPClient :=
  scriptedClient [okResponse "[ab]", okResponse "[c]", okResponse "[]"]

/-- A client that always answers with status 500 and an empty body. -/
def brokenClient : HTTPClient := constantClient (.ok ⟨500, ("", none)⟩)

/-- A producer message with an inline value schema and no records. -/
def sampleProducerMessage : ProducerMessage := ⟨"", 0, "schema", 0, []⟩

/-! ## Lemmas on the transport call count and on single loop steps -/

theorem doJSON_calls {α : Type} (restful : HTTPClient) (request : Request) (response : Option α)
    (unmarshal : String → α → α × Option GoError) (calls : Nat) :
    (doJSON restful request response unmarshal calls).calls = calls + 1 := by
  unfold doJSON
  split
  · rfl
  · split
    · rfl
    · split <;> rfl

theorem ConsumeEndpoint_calls_of_ok (std : Stdlib) (client : HTTPClient)
    (endpoint : ConsumerEndpoint) (topic : String) (format : Format) (calls : Nat)
    (h : (ConsumeEndpoint std client endpoint topic format calls).err = none) :
    (ConsumeEndpoint std client endpoint topic format calls).calls = calls + 1 := by
  unfold ConsumeEndpoint at h ⊢
  cases hreq : ConsumeEndpointRequest std endpoint topic format with
  | error e => simp [hreq] at h
  | ok req =>
    simp only [hreq] at h ⊢
    split
    · exact doJSON_calls _ _ _ _ _
    · split <;> exact doJSON_calls _ _ _ _ _

theorem loop_done (std : Stdlib) (client : HTTPClient) (endpoint : ConsumerEndpoint)
    (topic : String) (format : Format) (count : Int) (timedout : Nat → Bool)
    (fuel iter : Nat) (messages : List Message) (calls fetches : Nat)
    (h : count ≤ (messages.length : Int)) :
    WaitFor.loop std client endpoint topic format count timedout (fuel + 1) iter messages calls
      fetches = some ⟨messages, none, calls, fetches⟩ := by
  simp only [WaitFor.loop]
  rw [if_neg (not_lt.mpr h)]

theorem loop_timeout (std : Stdlib) (client : HTTPClient) (endpoint : ConsumerEndpoint)
    (topic : String) (format : Format) (count : Int) (timedout : Nat → Bool)
    (fuel iter : Nat) (messages : List Message) (calls fetches : Nat)
    (h : (messages.length : Int) < count) (ht : timedout iter = true) :
    WaitFor.loop std client endpoint topic format count timedout (fuel + 1) iter messages calls
      fetches = some ⟨[], some (timeoutError messages.length), calls, fetches⟩ := by
  simp only [WaitFor.loop]
  rw [if_pos h, if_pos ht]

theorem loop_fetch_error (std : Stdlib) (client : HTTPClient) (endpoint : ConsumerEndpoint)
    (topic : String) (format : Format) (count : Int) (timedout : Nat → Bool)
    (fuel iter : Nat) (messages : List Message) (calls fetches : Nat) (e : GoError)
    (h : (messages.length : Int) < count) (ht : timedout iter = false)
    (he : (ConsumeEndpoint std client endpoint topic format calls).err = some e) :
    WaitFor.loop std client endpoint topic format count timedout (fuel + 1) iter messages calls
      fetches
      = some ⟨[], some e, (ConsumeEndpoint std client endpoint topic format calls).calls,
          fetches + 1⟩ := by
  simp only [WaitFor.loop]
  rw [if_pos h, ht]
  simp [he]

theorem loop_fetch_ok (std : Stdlib) (client : HTTPClient) (endpoint : ConsumerEndpoint)
    (topic : String) (format : Format) (count : Int) (timedout : Nat → Bool)
    (fuel iter : Nat) (messages : List Message) (calls fetches : Nat)
    (h : (messages.length : Int) < count) (ht : timedout iter = false)
    (hok : (ConsumeEndpoint std client endpoint topic format calls).err = none) :
    WaitFor.loop std client endpoint topic format count timedout (fuel + 1) iter messages calls
      fetches
      = WaitFor.loop std client endpoint topic format count timedout fuel (iter + 1)
          (messages ++ (ConsumeEndpoint std client endpoint topic format calls).val)
          (calls + 1) (fetches + 1) := by
  have hc := ConsumeEndpoint_calls_of_ok std client endpoint topic format calls hok
  simp only [WaitFor.loop]
  rw [if_pos h, ht]
  simp [hok, hc]

theorem concatBatches_length_mono (b : Nat → List Message) {i j : Nat} (h : i ≤ j) :
    (concatBatches b i).length ≤ (concatBatches b j).length := by
  induction j with
  | zero =>
    have : i = 0 := Nat.le_zero.mp h
    subst this
    exact le_refl _
  | succ n ih =>
    rcases Nat.lt_or_ge i (n + 1) with hlt | hge
    · have := ih (Nat.lt_succ_iff.mp hlt)
      simp only [concatBatches, List.length_append]
      omega
    · have : i = n + 1 := le_antisymm h hge
      subst this
      exact le_refl _

/-- Running `n` iterations of the loop in which the target is not reached, the
deadline is not observed and the fetch succeeds. -/
theorem loop_steps (std : Stdlib) (client : HTTPClient) (endpoint : ConsumerEndpoint)
    (topic : String) (format : Format) (count : Int) (timedout : Nat → Bool)
    (b : Nat → List Message) (calls : Nat) :
    ∀ (n iter fuel : Nat),
      (∀ i, iter ≤ i → i < iter + n →
        ((concatBatches b (i + 1)).length : Int) < count ∧ timedout i = false ∧
        (ConsumeEndpoint std client endpoint topic format (calls + (i + 1))).err = none ∧
        (ConsumeEndpoint std client endpoint topic format (calls + (i + 1))).val = b (i + 1)) →
      WaitFor.loop std client endpoint topic format count timedout (fuel + n) iter
          (concatBatches b (iter + 1)) (calls + (iter + 1)) (iter + 1)
        = WaitFor.loop std client endpoint topic format count timedout fuel (iter + n)
          (concatBatches b (iter + n + 1)) (calls + (iter + n + 1)) (iter + n + 1) := by
  intro n
  induction n with
  | zero => intro iter fuel _; rfl
  | succ n ih =>
    intro iter fuel h
    obtain ⟨hlt, ht, hok, hval⟩ := h iter (le_refl _) (by omega)
    have hstep := loop_fetch_ok std client endpoint topic format count timedout (fuel + n) iter
      (concatBatches b (iter + 1)) (calls + (iter + 1)) (iter + 1) hlt ht hok
    have hfuel : fuel + (n + 1) = fuel + n + 1 := by omega
    rw [hfuel, hstep, hval]
    have hih := ih (iter + 1) fuel (fun i h1 h2 => h i (by omega) (by omega))
    have e1 : concatBatches b (iter + 1) ++ b (iter + 1) = concatBatches b (iter + 1 + 1) := rfl
    have e2 : calls + (iter + 1) + 1 = calls + (iter + 1 + 1) := by omega
    have e3 : iter + (n + 1) = iter + 1 + n := by omega
    rw [e1, e2, hih, e3]

/-- Once the first fetch has succeeded, `WaitFor` enters the loop. -/
theorem WaitFor_enter (std : Stdlib) (client : HTTPClient) (endpoint : ConsumerEndpoint)
    (topic : String) (format : Format) (count : Int) (timedout : Nat → Bool)
    (b : Nat → List Message) (fuel calls : Nat)
    (hok : (ConsumeEndpoint std client endpoint topic format calls).err = none)
    (hval : (ConsumeEndpoint std client endpoint topic format calls).val = b 0) :
    WaitFor std client endpoint topic format count timedout fuel calls
      = WaitFor.loop std client endpoint topic format count timedout fuel 0
          (concatBatches b (0 + 1)) (calls + (0 + 1)) (0 + 1) := by
  have hc := ConsumeEndpoint_calls_of_ok std client endpoint topic format calls hok
  unfold WaitFor
  simp only [hok, hval, hc]
  rfl

/-! ## Bounded polling: the claims -/

/-- C1. When the deadline is never observed and the fetches succeed with the
batches `b 0, b 1, ...`, `WaitFor` returns without error the concatenation of
the first `k` batches, in arrival order and untruncated, where `k ≥ 1` is the
least number of batches whose total size reaches `count`; it fetches exactly
`k` times. -/
theorem WaitFor_accumulates (std : Stdlib) (client : HTTPClient) (endpoint : ConsumerEndpoint)
    (topic : String) (format : Format) (count : Int) (timedout : Nat → Bool)
    (b : Nat → List Message) (k fuel calls : Nat)
    (hk : 1 ≤ k)
    (hfetch : ∀ i, i < k →
      (ConsumeEndpoint std client endpoint topic format (calls + i)).err = none ∧
      (ConsumeEndpoint std client endpoint topic format (calls + i)).val = b i)
    (hreach : count ≤ ((concatBatches b k).length : Int))
    (hleast : ∀ j, 1 ≤ j → j < k → ((concatBatches b j).length : Int) < count)
    (hdeadline : ∀ i, i + 1 < k → timedout i = false)
    (hfuel : k ≤ fuel) :
    WaitFor std client endpoint topic format count timedout fuel calls
      = some ⟨concatBatches b k, none, calls + k, k⟩ := by
  obtain ⟨m, rfl⟩ : ∃ m, k = m + 1 := ⟨k - 1, by omega⟩
  obtain ⟨f, rfl⟩ : ∃ f, fuel = f + 1 + m := ⟨fuel - (m + 1), by omega⟩
  obtain ⟨h0, hv0⟩ := hfetch 0 (by omega)
  rw [WaitFor_enter std client endpoint topic format count timedout b _ calls h0 hv0]
  rw [loop_steps std client endpoint topic format count timedout b calls m 0 (f + 1)
    (fun i _ h2 => ⟨hleast (i + 1) (by omega) (by omega), hdeadline i (by omega),
      hfetch (i + 1) (by omega)⟩)]
  rw [loop_done _ _ _ _ _ _ _ _ _ _ _ _ (by simpa using hreach)]
  simp

/-- C3. When the first `k - 1` fetches succeed with fewer than `count` messages
in total, the deadline is not observed before the `k`-th fetch and the `k`-th
fetch fails with `e`, `WaitFor` returns `e` itself with no messages, after
exactly `k` fetches. -/
theorem WaitFor_fetch_error (std : Stdlib) (client : HTTPClient) (endpoint : ConsumerEndpoint)
    (topic : String) (format : Format) (count : Int) (timedout : Nat → Bool)
    (b : Nat → List Message) (k fuel calls : Nat) (e : GoError)
    (hk : 1 ≤ k)
    (hfetch : ∀ i, i + 1 < k →
      (ConsumeEndpoint std client endpoint topic format (calls + i)).err = none ∧
      (ConsumeEndpoint std client endpoint topic format (calls + i)).val = b i)
    (hbelow : 2 ≤ k → ((concatBatches b (k - 1)).length : Int) < count)
    (hdeadline : ∀ i, i + 1 < k → timedout i = false)
    (herr : (ConsumeEndpoint std client endpoint topic format (calls + (k - 1))).err = some e)
    (hfuel : k ≤ fuel + 1) :
    WaitFor std client endpoint topic format count timedout fuel calls
      = some ⟨[], some e,
          (ConsumeEndpoint std client endpoint topic format (calls + (k - 1))).calls, k⟩ := by
  obtain ⟨m, rfl⟩ : ∃ m, k = m + 1 := ⟨k - 1, by omega⟩
  simp only [Nat.add_sub_cancel] at herr hbelow ⊢
  cases m with
  | zero =>
    unfold WaitFor
    simp only [Nat.add_zero] at herr ⊢
    simp [herr]
  | succ m =>
    obtain ⟨f, rfl⟩ : ∃ f, fuel = f + 1 + m := ⟨fuel - (m + 1), by omega⟩
    have hb : ((concatBatches b (m + 1)).length : Int) < count := hbelow (by omega)
    obtain ⟨h0, hv0⟩ := hfetch 0 (by omega)
    rw [WaitFor_enter std client endpoint topic format count timedout b _ calls h0 hv0]
    rw [loop_steps std client endpoint topic format count timedout b calls m 0 (f + 1)
      (fun i _ h2 => ⟨lt_of_le_of_lt
          (Int.ofNat_le.mpr (concatBatches_length_mono b (by omega))) hb,
        hdeadline i (by omega), hfetch (i + 1) (by omega)⟩)]
    have hb2 : ((concatBatches b (0 + m + 1)).length : Int) < count := by simpa using hb
    have herr2 : (ConsumeEndpoint std client endpoint topic format
        (calls + (0 + m + 1))).err = some e := by simpa using herr
    rw [loop_fetch_error _ _ _ _ _ _ _ _ _ _ _ _ e hb2 (hdeadline _ (by omega)) herr2]
    simp

/-- C4. When the first `k` fetches succeed, their total stays below `count`
and the loop observes the deadline at its `k`-th check, `WaitFor` fails with
the error whose text is "Timed out: n", `n` being the total number of messages
fetched so far, and returns no messages. -/
theorem WaitFor_timeout (std : Stdlib) (client : HTTPClient) (endpoint : ConsumerEndpoint)
    (topic : String) (format : Format) (count : Int) (timedout : Nat → Bool)
    (b : Nat → List Message) (k fuel calls : Nat)
    (hk : 1 ≤ k)
    (hfetch : ∀ i, i < k →
      (ConsumeEndpoint std client endpoint topic format (calls + i)).err = none ∧
      (ConsumeEndpoint std client endpoint topic format (calls + i)).val = b i)
    (hbelow : ((concatBatches b k).length : Int) < count)
    (hquiet : ∀ i, i + 1 < k → timedout i = false)
    (hfire : timedout (k - 1) = true)
    (hfuel : k ≤ fuel) :
    WaitFor std client endpoint topic format count timedout fuel calls
        = some ⟨[], some (.errorf ("Timed out: " ++ toString (concatBatches b k).length)),
            calls + k, k⟩ := by
  obtain ⟨m, rfl⟩ : ∃ m, k = m + 1 := ⟨k - 1, by omega⟩
  obtain ⟨f, rfl⟩ : ∃ f, fuel = f + 1 + m := ⟨fuel - (m + 1), by omega⟩
  simp only [Nat.add_sub_cancel] at hfire
  obtain ⟨h0, hv0⟩ := hfetch 0 (by omega)
  rw [WaitFor_enter std client endpoint topic format count timedout b _ calls h0 hv0]
  rw [loop_steps std client endpoint topic format count timedout b calls m 0 (f + 1)
    (fun i _ h2 => ⟨lt_of_le_of_lt
        (Int.ofNat_le.mpr (concatBatches_length_mono b (by omega))) hbelow,
      hquiet i (by omega), hfetch (i + 1) (by omega)⟩)]
  have hb2 : ((concatBatches b (0 + m + 1)).length : Int) < count := by simpa using hbelow
  have hf2 : timedout (0 + m) = true := by simpa using hfire
  rw [loop_timeout _ _ _ _ _ _ _ _ _ _ _ _ hb2 hf2]
  simp [timeoutError]

theorem elapsedAt_mono (latency : Nat → Nat) {i j : Nat} (h : i ≤ j) :
    elapsedAt latency i ≤ elapsedAt latency j := by
  induction j with
  | zero =>
    have : i = 0 := Nat.le_zero.mp h
    subst this
    exact le_refl _
  | succ n ih =>
    rcases Nat.lt_or_ge i (n + 1) with hlt | hge
    · have := ih (Nat.lt_succ_iff.mp hlt)
      simp only [elapsedAt]
      omega
    · have : i = n + 1 := le_antisymm h hge
      subst this
      exact le_refl _

theorem elapsedAt_zero_latency (i : Nat) : elapsedAt (fun _ => 0) i = i * pollInterval := by
  induction i with
  | zero => simp [elapsedAt]
  | succ n ih => simp only [elapsedAt, ih]; ring

/-- C2, as the code behaves. When the first `k` fetches succeed with a total
below `count`, the channel `timedout` is open at the check before the `k`-th
wait and closed at the next check, `WaitFor` issues exactly one more fetch
after that wait and none after it: a failure of that fetch is returned as it
is; if the fetch brings the total to `count` all messages are returned;
otherwise the timeout failure is returned, reporting the total with that fetch
included. -/
theorem WaitFor_deadline_during_wait (std : Stdlib) (client : HTTPClient)
    (endpoint : ConsumerEndpoint) (topic : String) (format : Format) (count : Int)
    (timedout : Nat → Bool) (b : Nat → List Message) (k fuel calls : Nat)
    (hk : 1 ≤ k)
    (hfetch : ∀ i, i < k →
      (ConsumeEndpoint std client endpoint topic format (calls + i)).err = none ∧
      (ConsumeEndpoint std client endpoint topic format (calls + i)).val = b i)
    (hbelow : ((concatBatches b k).length : Int) < count)
    (hbefore : ∀ i, i < k → timedout i = false)
    (hafter : timedout k = true)
    (hfuel : k + 1 ≤ fuel) :
    (∀ e, (ConsumeEndpoint std client endpoint topic format (calls + k)).err = some e →
      WaitFor std client endpoint topic format count timedout fuel calls
        = some ⟨[], some e,
            (ConsumeEndpoint std client endpoint topic format (calls + k)).calls, k + 1⟩) ∧
    ((ConsumeEndpoint std client endpoint topic format (calls + k)).err = none →
      count ≤ ((concatBatches b k ++
        (ConsumeEndpoint std client endpoint topic format (calls + k)).val).length : Int) →
      WaitFor std client endpoint topic format count timedout fuel calls
        = some ⟨concatBatches b k ++
            (ConsumeEndpoint std client endpoint topic format (calls + k)).val,
            none, calls + (k + 1), k + 1⟩) ∧
    ((ConsumeEndpoint std client endpoint topic format (calls + k)).err = none →
      ((concatBatches b k ++
        (ConsumeEndpoint std client endpoint topic format (calls + k)).val).length : Int)
          < count →
      WaitFor std client endpoint topic format count timedout fuel calls
        = some ⟨[], some (.errorf ("Timed out: " ++ toString (concatBatches b k ++
            (ConsumeEndpoint std client endpoint topic format (calls + k)).val).length)),
            calls + (k + 1), k + 1⟩) := by
  obtain ⟨m, rfl⟩ : ∃ m, k = m + 1 := ⟨k - 1, by omega⟩
  obtain ⟨f, rfl⟩ : ∃ f, fuel = f + 1 + 1 + m := ⟨fuel - (m + 2), by omega⟩
  obtain ⟨h0, hv0⟩ := hfetch 0 (by omega)
  have hrun : WaitFor std client endpoint topic format count timedout (f + 1 + 1 + m) calls
      = WaitFor.loop std client endpoint topic format count timedout
          (f + 1 + 1) m (concatBatches b (m + 1)) (calls + (m + 1)) (m + 1) := by
    rw [WaitFor_enter std client endpoint topic format count _ b _ calls h0 hv0]
    rw [loop_steps std client endpoint topic format count _ b calls m 0 (f + 1 + 1)
      (fun i _ h2 => ⟨lt_of_le_of_lt
          (Int.ofNat_le.mpr (concatBatches_length_mono b (by omega))) hbelow,
        hbefore i (by omega), hfetch (i + 1) (by omega)⟩)]
    simp
  refine ⟨?_, ?_, ?_⟩
  · intro e he
    rw [hrun, loop_fetch_error _ _ _ _ _ _ _ _ _ _ _ _ e hbelow (hbefore m (by omega)) he]
  · intro hok hreach
    rw [hrun, loop_fetch_ok _ _ _ _ _ _ _ _ _ _ _ _ hbelow (hbefore m (by omega)) hok,
      loop_done _ _ _ _ _ _ _ _ _ _ _ _ hreach]
    simp [Nat.add_assoc]
  · intro hok hstill
    rw [hrun, loop_fetch_ok _ _ _ _ _ _ _ _ _ _ _ _ hbelow (hbefore m (by omega)) hok,
      loop_timeout _ _ _ _ _ _ _ _ _ _ _ _ hstill hafter]
    simp [timeoutError, Nat.add_assoc]

/-- A deadline that falls strictly inside the wait of iteration `k - 1` leaves
the channel open at every check up to that iteration and closed at the next
check. -/
theorem TimerAdmits_during_wait (timeout : Nat) (latency : Nat → Nat) (timedout : Nat → Bool)
    (k : Nat) (hk : 1 ≤ k) (htimer : TimerAdmits timeout latency timedout)
    (hbefore : elapsedAt latency (k - 1) < timeout)
    (hduring : timeout < elapsedAt latency (k - 1) + pollInterval) :
    (∀ i, i < k → timedout i = false) ∧ timedout k = true := by
  obtain ⟨m, rfl⟩ : ∃ m, k = m + 1 := ⟨k - 1, by omega⟩
  simp only [Nat.add_sub_cancel] at hbefore hduring
  refine ⟨?_, ?_⟩
  · intro i hi
    exact htimer.1 i (lt_of_le_of_lt (elapsedAt_mono latency (by omega)) hbefore)
  · apply htimer.2
    simp only [elapsedAt]
    omega

/-! ## Validation before the network -/

theorem contentTypeForFormat_unknown (format : Format)
    (h : ¬ (format = JSON ∨ format = Binary ∨ format = Avro)) :
    contentTypeForFormat format = ("", some (.errorf ("Unknown format: " ++ format))) := by
  have h1 : ¬ format = JSON := fun e => h (Or.inl e)
  have h2 : ¬ format = Binary := fun e => h (Or.inr (Or.inl e))
  have h3 : ¬ format = Avro := fun e => h (Or.inr (Or.inr e))
  simp [contentTypeForFormat, h1, h2, h3]

theorem ConsumeRequest_unknown (std : Stdlib) (baseURL topic : String)
    (partition offset count : Int) (format : Format)
    (h : ¬ (format = JSON ∨ format = Binary ∨ format = Avro)) :
    ConsumeRequest std baseURL topic partition offset count format
      = .error (.errorf ("Unknown format: " ++ format)) := by
  simp [ConsumeRequest, contentTypeForFormat_unknown format h]

/-- C9. `Consume` reaches the transport only when `count ≥ 1` and the format is
json, binary or avro; with `count < 1` it returns the count validation error,
and with `count ≥ 1` and an unrecognized format the format validation error,
each time with no messages and without any transport call. -/
theorem Consume_validates_first (std : Stdlib) (client : HTTPClient) (baseURL topic : String)
    (partition offset count : Int) (format : Format) (calls : Nat) :
    ((Consume std client baseURL topic partition offset count format calls).calls ≠ calls →
      1 ≤ count ∧ (format = JSON ∨ format = Binary ∨ format = Avro)) ∧
    (count < 1 →
      Consume std client baseURL topic partition offset count format calls
        = ⟨[], some (.errorf ("Count must be 1 or greater: " ++ toString count)), calls⟩) ∧
    (1 ≤ count → ¬ (format = JSON ∨ format = Binary ∨ format = Avro) →
      Consume std client baseURL topic partition offset count format calls
        = ⟨[], some (.errorf ("Unknown format: " ++ format)), calls⟩) := by
  refine ⟨?_, ?_, ?_⟩
  · intro h
    by_cases hc : count < 1
    · simp [Consume, hc] at h
    · by_cases hf : format = JSON ∨ format = Binary ∨ format = Avro
      · exact ⟨not_lt.mp hc, hf⟩
      · simp [Consume, hc, ConsumeRequest_unknown std baseURL topic partition offset count
          format hf] at h
  · intro hc
    simp [Consume, hc]
  · intro hc hf
    simp [Consume, not_lt.mpr hc,
      ConsumeRequest_unknown std baseURL topic partition offset count format hf]

/-- C10. `Produce` with format avro, an empty inline value schema and a zero
value schema id returns the schema validation error, no response, and makes no
transport call.  With format avro and a non-empty value schema or a non-zero
value schema id the call goes on: a request that cannot be built gives the
builder's error, and a request that is built goes to the transport once. -/
theorem Produce_avro_schema_validation (std : Stdlib) (client : HTTPClient)
    (baseURL topic : String) (message : ProducerMessage) (calls : Nat) :
    (message.ValueSchema = "" → message.ValueSchemaID = 0 →
      Produce std client baseURL topic message Avro calls
        = ⟨none, some (.errorf "Must provide a value schema or value schema id"), calls⟩) ∧
    (message.ValueSchema ≠ "" ∨ message.ValueSchemaID ≠ 0 →
      (∀ err, ProduceRequest std baseURL topic Avro message = .error err →
        Produce std client baseURL topic message Avro calls = ⟨none, some err, calls⟩) ∧
      (∀ req, ProduceRequest std baseURL topic Avro message = .ok req →
        (Produce std client baseURL topic message Avro calls).calls = calls + 1)) := by
  refine ⟨?_, ?_⟩
  · intro h1 h2
    simp [Produce, h1, h2]
  · intro h
    have hguard : ¬ (Avro = Avro ∧ message.ValueSchema = "" ∧ message.ValueSchemaID = 0) := by
      rintro ⟨_, h1, h2⟩
      rcases h with h | h
      · exact h h1
      · exact h h2
    refine ⟨?_, ?_⟩
    · intro err he
      unfold Produce
      rw [if_neg hguard, he]
    · intro req he
      unfold Produce
      rw [if_neg hguard, he]
      simp only []
      split
      · exact doJSON_calls _ _ _ _ _
      · split <;> exact doJSON_calls _ _ _ _ _

/-! ## Evaluation on concrete inputs -/

/-- Witness of C1: batches of sizes 2, 0, 3 and a target of 5 give the 5
messages after exactly 3 fetches. -/
theorem WaitFor_accumulates_witness :
    WaitFor sampleStd batchClient sampleEndpoint "t" Avro 5 (fun _ => false) 3 0
      = some ⟨[sampleMessage "a", sampleMessage "b", sampleMessage "c", sampleMessage "d",
          sampleMessage "e"], none, 3, 3⟩ :=
  WaitFor_accumulates sampleStd batchClient sampleEndpoint "t" Avro 5 (fun _ => false)
    sampleBatches 3 3 0 (by decide) (by decide) (by decide)
    (by intro j h1 h2; interval_cases j <;> decide) (fun _ _ => rfl) (by decide)

/-- Witness of C3: the second fetch answers with status 500; `WaitFor` returns
that status error after 2 fetches. -/
theorem WaitFor_fetch_error_witness :
    WaitFor sampleStd failingSecondClient sampleEndpoint "t" Avro 5 (fun _ => false) 9 0
      = some ⟨[], some (.errorf "500:[]"), 2, 2⟩ :=
  WaitFor_fetch_error sampleStd failingSecondClient sampleEndpoint "t" Avro 5 (fun _ => false)
    (fun _ => [sampleMessage "a"]) 2 9 0 (.errorf "500:[]") (by decide)
    (by intro i h; obtain rfl : i = 0 := by omega
        decide)
    (by decide) (fun _ _ => rfl) (by decide) (by decide)

/-- Witness of C4: batches of sizes 2, 1 and 0 against a target of 5, the
deadline observed at the third check. -/
theorem WaitFor_timeout_witness :
    WaitFor sampleStd shortClient sampleEndpoint "t" Avro 5 (closedFrom 2) 9 0
      = some ⟨[], some (.errorf "Timed out: 3"), 3, 3⟩ :=
  WaitFor_timeout sampleStd shortClient sampleEndpoint "t" Avro 5 (closedFrom 2)
    shortBatches 3 9 0 (by decide) (by decide) (by decide)
    (by intro i h; have h2 : i < 2 := by omega
        interval_cases i <;> decide)
    (by decide) (by decide)

/-- Counterexample to C2 as stated. Timeout 300 ms, target 1, fetches that
take no time, the first one empty: the deadline falls strictly inside the
first 500 ms wait, so the channel is open at the first check and closed at the
second, and the accumulated count (0) is below the target.  `WaitFor` still
fetches a second time: with an empty second batch it returns the timeout
failure after 2 fetches, not 1, and with a second batch of one message it
returns that message and no timeout failure. -/
theorem WaitFor_fetches_after_deadline :
    ConsumeEndpoint sampleStd emptyClient sampleEndpoint "t" Avro 0 = ⟨[], none, 1⟩ ∧
    ConsumeEndpoint sampleStd lateClient sampleEndpoint "t" Avro 0 = ⟨[], none, 1⟩ ∧
    elapsedAt (fun _ => 0) 0 < 300 ∧
    300 < elapsedAt (fun _ => 0) 0 + pollInterval ∧
    closedFrom 1 0 = false ∧
    closedFrom 1 1 = true ∧
    WaitFor sampleStd emptyClient sampleEndpoint "t" Avro 1 (closedFrom 1) 9 0
      = some ⟨[], some (.errorf "Timed out: 0"), 2, 2⟩ ∧
    WaitFor sampleStd emptyClient sampleEndpoint "t" Avro 1 (closedFrom 1) 9 0
      ≠ some ⟨[], some (.errorf "Timed out: 0"), 1, 1⟩ ∧
    WaitFor sampleStd lateClient sampleEndpoint "t" Avro 1 (closedFrom 1) 9 0
      = some ⟨[sampleMessage "a"], none, 2, 2⟩ := by
  decide

/-- Witness of C2 as the code behaves, one run for each outcome of the fetch
that follows the wait (channel open at the first check, closed at the second):
the fetch fails; the fetch reaches the target; the fetch leaves the total
below it. -/
theorem WaitFor_deadline_during_wait_witness :
    WaitFor sampleStd failingSecondClient sampleEndpoint "t" Avro 5 (closedFrom 1) 9 0
      = some ⟨[], some (.errorf "500:[]"), 2, 2⟩ ∧
    WaitFor sampleStd lateClient sampleEndpoint "t" Avro 1 (closedFrom 1) 9 0
      = some ⟨[sampleMessage "a"], none, 2, 2⟩ ∧
    WaitFor sampleStd emptyClient sampleEndpoint "t" Avro 1 (closedFrom 1) 9 0
      = some ⟨[], some (.errorf "Timed out: 0"), 2, 2⟩ :=
  ⟨(WaitFor_deadline_during_wait sampleStd failingSecondClient sampleEndpoint "t" Avro 5
      (closedFrom 1) (fun _ => [sampleMessage "a"]) 1 9 0 (by decide) (by decide) (by decide)
      (by decide) (by decide) (by decide)).1 (.errorf "500:[]") rfl,
   (WaitFor_deadline_during_wait sampleStd lateClient sampleEndpoint "t" Avro 1
      (closedFrom 1) (fun _ => []) 1 9 0 (by decide) (by decide) (by decide) (by decide)
      (by decide) (by decide)).2.1 rfl (by decide),
   (WaitFor_deadline_during_wait sampleStd emptyClient sampleEndpoint "t" Avro 1
      (closedFrom 1) (fun _ => []) 1 9 0 (by decide) (by decide) (by decide) (by decide)
      (by decide) (by decide)).2.2 rfl (by decide)⟩

/-- The timer of the C2 counterexample: a deadline of 300 ms with fetches that
take no time allows only the channel open at the first check and closed from
the second on. -/
theorem TimerAdmits_300 : TimerAdmits 300 (fun _ => 0) (closedFrom 1) := by
  have hpos : pollInterval = 500 := rfl
  refine ⟨?_, ?_⟩ <;> intro i hi <;> rw [elapsedAt_zero_latency, hpos] at hi <;>
    simp only [closedFrom, decide_eq_false_iff_not, decide_eq_true_eq, not_le] <;> omega

/-! ## Error surfacing after the transport was called -/

/-- Whatever the transport error `e`, `CreateConsumer` hands back the freshly
allocated endpoint together with `e`. -/
theorem CreateConsumer_transport_failure (std : Stdlib) (client : HTTPClient)
    (baseURL group : String) (request : ConsumerRequest) (calls : Nat) (req : Request)
    (e : GoError)
    (hreq : CreateConsumerRequest std baseURL group request = .ok req)
    (hdo : client.Do calls req = .error e) :
    CreateConsumer std client baseURL group request calls
      = ⟨some ⟨"", ""⟩, some e, calls + 1⟩ := by
  simp [CreateConsumer, hreq, doJSON, hdo]

theorem doJSON_response_ne_none {α : Type} (restful : HTTPClient) (request : Request)
    (r0 : α) (unmarshal : String → α → α × Option GoError) (calls : Nat) :
    (doJSON restful request (some r0) unmarshal calls).response ≠ none := by
  unfold doJSON
  split
  · simp
  · split <;> simp

/-- With a nil error, `CreateConsumer` returns an endpoint, and the request it
built was answered with status 200. -/
theorem CreateConsumer_nil_error (std : Stdlib) (client : HTTPClient)
    (baseURL group : String) (request : ConsumerRequest) (calls : Nat)
    (h : (CreateConsumer std client baseURL group request calls).err = none) :
    (CreateConsumer std client baseURL group request calls).val ≠ none ∧
    ∃ req, CreateConsumerRequest std baseURL group request = .ok req ∧
      (doJSON client req (some (⟨"", ""⟩ : ConsumerEndpoint)) std.UnmarshalConsumerEndpoint
        calls).status = StatusOK := by
  unfold CreateConsumer at h ⊢
  cases hreq : CreateConsumerRequest std baseURL group request with
  | error e => simp [hreq] at h
  | ok req =>
    simp only [hreq] at h ⊢
    cases herr : (doJSON client req (some (⟨"", ""⟩ : ConsumerEndpoint))
        std.UnmarshalConsumerEndpoint calls).err with
    | some e => simp [herr] at h
    | none =>
      simp only [herr] at h ⊢
      by_cases hs : (doJSON client req (some (⟨"", ""⟩ : ConsumerEndpoint))
          std.UnmarshalConsumerEndpoint calls).status = StatusOK
      · simp only [hs, ne_eq, not_true_eq_false, if_false]
        exact ⟨doJSON_response_ne_none _ _ _ _ _, req, rfl, hs⟩
      · simp [hs] at h

/-- With a status other than 200 and no transport, read or decode error,
`CreateConsumer` returns no endpoint and the status error. -/
theorem CreateConsumer_status_error (std : Stdlib) (client : HTTPClient)
    (baseURL group : String) (request : ConsumerRequest) (calls : Nat) (req : Request)
    (status : Int) (body : String) (r : ConsumerEndpoint)
    (hreq : CreateConsumerRequest std baseURL group request = .ok req)
    (hdo : client.Do calls req = .ok ⟨status, (body, none)⟩)
    (hdec : std.UnmarshalConsumerEndpoint body ⟨"", ""⟩ = (r, none))
    (hs : status ≠ StatusOK) :
    CreateConsumer std client baseURL group request calls
      = ⟨none, some (statusError status body), calls + 1⟩ := by
  simp [CreateConsumer, hreq, doJSON, hdo, hdec, hs]

/-- Whatever the status, a body that does not decode makes `Produce` return the
decoder's error. -/
theorem Produce_decode_error (std : Stdlib) (client : HTTPClient) (baseURL topic : String)
    (message : ProducerMessage) (format : Format) (calls : Nat) (req : Request)
    (status : Int) (body : String) (r : ProducerResponse) (e : GoError)
    (hvalid : ¬ (format = Avro ∧ message.ValueSchema = "" ∧ message.ValueSchemaID = 0))
    (hreq : ProduceRequest std baseURL topic format message = .ok req)
    (hdo : client.Do calls req = .ok ⟨status, (body, none)⟩)
    (hdec : std.UnmarshalProducerResponse body ⟨0, 0, []⟩ = (r, some e)) :
    Produce std client baseURL topic message format calls = ⟨none, some e, calls + 1⟩ := by
  unfold Produce
  rw [if_neg hvalid, hreq]
  simp [doJSON, hdo, hdec]

/-- Whatever the transport error, `Consume` returns the status error built
from the zero status and the empty body. -/
theorem Consume_transport_failure (std : Stdlib) (client : HTTPClient) (baseURL topic : String)
    (partition offset count : Int) (format : Format) (calls : Nat) (req : Request)
    (e : GoError) (hcount : 1 ≤ count)
    (hreq : ConsumeRequest std baseURL topic partition offset count format = .ok req)
    (hdo : client.Do calls req = .error e) :
    Consume std client baseURL topic partition offset count format calls
      = ⟨[], some (statusError 0 ""), calls + 1⟩ := by
  unfold Consume
  rw [if_neg (not_lt.mpr hcount), hreq]
  simp [doJSON, hdo, StatusOK]

/-- C6, at the failing input. The transport refuses the connection:
`CreateConsumer` returns the error together with a non-nil (zero-valued)
endpoint. -/
theorem CreateConsumer_endpoint_with_error :
    CreateConsumer sampleStd refusingClient "http://proxy" "g"
        (NewConsumerRequest Avro Smallest) 0
      = ⟨some ⟨"", ""⟩, some (.lib "connection refused"), 1⟩ := by
  decide

/-- C7, at the failing input. The response has status 500 and an empty body:
`Produce` returns the decoder's error, which carries neither the status nor the
body, where `Consume` returns the status error "500:" for the same response. -/
theorem Produce_status_lost :
    Produce sampleStd brokenClient "http://proxy" "t" sampleProducerMessage Avro 0
      = ⟨none, some (.lib "unexpected end of JSON input"), 1⟩ ∧
    Consume sampleStd brokenClient "http://proxy" "t" 0 0 1 Avro 0
      = ⟨[], some (.errorf "500:"), 1⟩ := by
  decide

/-- C8, at the failing input. The transport refuses the connection: `Consume`
returns the error "0:", the status error of status 0 and empty body, without
the cause, where `Produce` returns the cause itself and `ConsumeEndpoint` an
error whose text ends with the cause. -/
theorem Consume_cause_lost :
    Consume sampleStd refusingClient "http://proxy" "t" 0 0 1 JSON 0
      = ⟨[], some (.errorf "0:"), 1⟩ ∧
    statusError 0 "" = .errorf "0:" ∧
    Produce sampleStd refusingClient "http://proxy" "t" sampleProducerMessage Avro 0
      = ⟨none, some (.lib "connection refused"), 1⟩ ∧
    ConsumeEndpoint sampleStd refusingClient sampleEndpoint "t" JSON 0
      = ⟨[], some (.errorf "0::connection refused"), 1⟩ := by
  decide

/-- Witness of C9: a count of 0 is rejected before the transport is reached. -/
theorem Consume_validates_first_witness :
    Consume sampleStd emptyClient "http://proxy" "t" 0 0 0 JSON 7
      = ⟨[], some (.errorf "Count must be 1 or greater: 0"), 7⟩ :=
  (Consume_validates_first sampleStd emptyClient "http://proxy" "t" 0 0 0 JSON 7).2.1
    (by decide)

/-- Witness of C10: an avro message with neither schema nor schema id is
rejected before the transport is reached. -/
theorem Produce_avro_schema_validation_witness :
    Produce sampleStd emptyClient "http://proxy" "t" ⟨"", 0, "", 0, []⟩ Avro 7
      = ⟨none, some (.errorf "Must provide a value schema or value schema id"), 7⟩ :=
  (Produce_avro_schema_validation sampleStd emptyClient "http://proxy" "t"
    ⟨"", 0, "", 0, []⟩ 7).1 rfl rfl

end KafkaProxy
